import Mathlib

/-!
Shallow embedding of the YouCanStyle-Api booking and payment services.

The definitions below are translated from the Python sources:
  app/services/booking_service.py
  app/services/payment_service.py
  app/services/review_service.py
  app/api/api_v1/endpoints/bookings_new.py
The document store (MongoDB collections) is modelled as lists of records;
`insert_one` appends, `update_one` rewrites the first matching record
(Mongo document ids are unique, so at most one record matches an id query),
`update_many` rewrites every matching record, and `find_one` returns the
first matching record.  Monetary amounts are modelled as rationals;
Python's `round(x, n)` (round-half-to-even) is modelled exactly on ℚ.
The payment gateway and the notification dispatcher are external
collaborators: the gateway outcome is passed in as an `Except` value and
notifications are fire-and-forget, so they do not appear in the state.
-/

inductive BookingStatus
  | pending
  | confirmed
  | inProgress
  | completed
  | cancelled
  | noShow
  | rescheduled
  deriving DecidableEq, Repr

inductive PaymentStatus
  | pending
  | completed
  | failed
  | refunded
  | cancelled
  deriving DecidableEq, Repr

inductive TransactionType
  | payment
  | refund
  | payout
  | withdrawal
  | deposit
  | fee
  | tax
  deriving DecidableEq, Repr

/-- A document of the `bookings` collection (schemas/booking.py, BookingDB). -/
structure Booking where
  id : Nat
  stylistId : String
  clientId : String
  date : Nat
  startTime : String
  endTime : String
  price : Int
  duration : Nat
  isOnlineSession : Bool
  status : BookingStatus
  paymentStatus : PaymentStatus
  otpCode : String
  meetingLink : Option String
  rating : Option Int
  review : Option String
  cancellationReason : Option String
  rescheduleReason : Option String
  deriving DecidableEq, Repr

/-- A document of the `payments` collection (payment_service.create_payment). -/
structure Payment where
  id : Nat
  bookingId : Nat
  clientId : String
  stylistId : String
  amount : ℚ
  currency : String
  status : PaymentStatus
  platformFee : ℚ
  stylistAmount : ℚ
  transactionId : Option String
  errorMessage : Option String
  refundTransactionId : Option String
  refundReason : Option String
  deriving DecidableEq, Repr

/-- A document of the `transactions` collection. -/
structure Transaction where
  userId : String
  type : TransactionType
  amount : ℚ
  currency : String
  status : PaymentStatus
  bookingId : Option Nat
  paymentId : Option Nat
  fee : Option ℚ
  deriving DecidableEq, Repr

/-- A document of the `payment_methods` collection (the fields the
default-flag logic reads; card data is redacted before storage). -/
structure PaymentMethodDoc where
  id : Nat
  userId : String
  isDefault : Bool
  deriving DecidableEq, Repr

/-- A document of the `stylists` collection (the rating aggregate fields). -/
structure Stylist where
  id : String
  rating : ℚ
  reviewCount : Nat
  deriving DecidableEq, Repr

/-- A document of the `stylists_reviews` collection (review_service). -/
structure Review where
  stylistId : String
  rating : Int
  deriving DecidableEq, Repr

/-- The document store: one list per collection the claims touch. -/
structure DB where
  bookings : List Booking
  payments : List Payment
  transactions : List Transaction
  payment_methods : List PaymentMethodDoc
  stylists : List Stylist
  stylists_reviews : List Review
  deriving DecidableEq, Repr

/-- Mongo `update_one`: rewrite the first record matching the filter. -/
def updateFirst {α : Type} (p : α → Bool) (f : α → α) : List α → List α
  | [] => []
  | x :: xs => if p x then f x :: xs else x :: updateFirst p f xs

/-- booking_service.get_booking_by_id: `find_one` on the bookings collection. -/
def get_booking_by_id (db : DB) (booking_id : Nat) : Option Booking :=
  db.bookings.find? (fun b => b.id == booking_id)

/-- payment_service.get_payment_by_id: `find_one` on the payments collection. -/
def get_payment_by_id (db : DB) (payment_id : Nat) : Option Payment :=
  db.payments.find? (fun p => p.id == payment_id)

/-- `find_one` on the stylists collection by id. -/
def get_stylist (db : DB) (stylist_id : String) : Option Stylist :=
  db.stylists.find? (fun s => s.id == stylist_id)

/-- Round-half-to-even to an integer, the rounding Python's `round` uses. -/
def roundHalfEven (x : ℚ) : ℤ :=
  let n := ⌊x⌋
  let frac := x - (n : ℚ)
  if frac < 1 / 2 then n
  else if 1 / 2 < frac then n + 1
  else if n % 2 = 0 then n else n + 1

/-- Python `round(x, ndigits)` on exact rationals. -/
def roundTo (ndigits : Nat) (x : ℚ) : ℚ :=
  let m : ℚ := (10 : ℚ) ^ ndigits
  (roundHalfEven (x * m) : ℚ) / m

/-- payment_service.PLATFORM_FEE_PERCENTAGE = 10. -/
def PLATFORM_FEE_PERCENTAGE : ℚ := 10

/-- The gateway's successful response (the core only reads its `id`). -/
structure GatewayResult where
  id : String
  deriving DecidableEq, Repr

/-- payment_service.create_payment.  `gateway` is the outcome of the
external gateway call (`Except.error e` models the call raising with
message `e`); `newPaymentId` is the fresh `_id` Mongo assigns on insert.
Returns the new store plus the value the function returns (`none` models
Python `None`). -/
def create_payment (db : DB) (bookingId : Nat) (amount : ℚ) (currency : String)
    (client_id : String) (gateway : Except String GatewayResult)
    (newPaymentId : Nat) : DB × Option Payment :=
  match get_booking_by_id db bookingId with
  | none => (db, none)
  | some booking =>
    if booking.clientId ≠ client_id then (db, none)
    else
      let platformFee := roundTo 2 (amount * (PLATFORM_FEE_PERCENTAGE / 100))
      let stylistAmount := amount - platformFee
      match gateway with
      | Except.error e =>
        let failedPayment : Payment :=
          { id := newPaymentId, bookingId := bookingId, clientId := client_id
            stylistId := booking.stylistId, amount := amount, currency := currency
            status := PaymentStatus.failed, platformFee := platformFee
            stylistAmount := stylistAmount, transactionId := none
            errorMessage := some e, refundTransactionId := none
            refundReason := none }
        ({ db with payments := db.payments ++ [failedPayment] }, none)
      | Except.ok payment_result =>
        let createdPayment : Payment :=
          { id := newPaymentId, bookingId := bookingId, clientId := client_id
            stylistId := booking.stylistId, amount := amount, currency := currency
            status := PaymentStatus.completed, platformFee := platformFee
            stylistAmount := stylistAmount
            transactionId := some payment_result.id, errorMessage := none
            refundTransactionId := none, refundReason := none }
        let transaction_data : Transaction :=
          { userId := client_id, type := TransactionType.payment
            amount := amount, currency := currency
            status := PaymentStatus.completed, bookingId := some bookingId
            paymentId := some newPaymentId, fee := some platformFee }
        let fee_transaction : Transaction :=
          { userId := "platform", type := TransactionType.fee
            amount := platformFee, currency := currency
            status := PaymentStatus.completed, bookingId := some bookingId
            paymentId := some newPaymentId, fee := none }
        let db1 : DB :=
          { db with
            payments := db.payments ++ [createdPayment]
            transactions := db.transactions ++ [transaction_data, fee_transaction]
            bookings := updateFirst (fun b => b.id == bookingId)
              (fun b => { b with paymentStatus := PaymentStatus.completed })
              db.bookings }
        (db1, some createdPayment)

/-- payment_service.refund_payment.  The refund gateway call is passed in
as `gateway`; on a raised gateway error the function returns `None` with
the store untouched (the exception fires before any write). -/
def refund_payment (db : DB) (payment_id : Nat) (reason : Option String)
    (gateway : Except String GatewayResult) : DB × Option Payment :=
  match get_payment_by_id db payment_id with
  | none => (db, none)
  | some payment =>
    if payment.status ≠ PaymentStatus.completed then (db, none)
    else
      match gateway with
      | Except.error _ => (db, none)
      | Except.ok refund_result =>
        let db1 : DB :=
          { db with
            payments := updateFirst (fun p => p.id == payment_id)
              (fun p =>
                { p with
                  status := PaymentStatus.refunded
                  refundTransactionId := some refund_result.id
                  refundReason := reason }) db.payments }
        let transaction_data : Transaction :=
          { userId := payment.clientId, type := TransactionType.refund
            amount := payment.amount, currency := payment.currency
            status := PaymentStatus.completed
            bookingId := some payment.bookingId
            paymentId := some payment_id, fee := none }
        let db2 : DB :=
          { db1 with transactions := db1.transactions ++ [transaction_data] }
        let db3 : DB :=
          { db2 with
            bookings := updateFirst (fun b => b.id == payment.bookingId)
              (fun b => { b with paymentStatus := PaymentStatus.refunded })
              db2.bookings }
        (db3, get_payment_by_id db3 payment_id)

/-- booking_service.start_session: OTP-gated transition confirmed → inProgress. -/
def start_session (db : DB) (booking_id : Nat) (otp_code : String) :
    DB × Option Booking :=
  match get_booking_by_id db booking_id with
  | none => (db, none)
  | some booking =>
    if booking.status ≠ BookingStatus.confirmed then (db, none)
    else if booking.otpCode ≠ otp_code then (db, none)
    else
      let db1 : DB :=
        { db with
          bookings := updateFirst (fun b => b.id == booking_id)
            (fun b => { b with status := BookingStatus.inProgress })
            db.bookings }
      (db1, get_booking_by_id db1 booking_id)

/-- booking_service.complete_booking: transition inProgress → completed,
no OTP argument. -/
def complete_booking (db : DB) (booking_id : Nat) : DB × Option Booking :=
  match get_booking_by_id db booking_id with
  | none => (db, none)
  | some booking =>
    if booking.status ≠ BookingStatus.inProgress then (db, none)
    else
      let db1 : DB :=
        { db with
          bookings := updateFirst (fun b => b.id == booking_id)
            (fun b => { b with status := BookingStatus.completed })
            db.bookings }
      (db1, get_booking_by_id db1 booking_id)

/-- booking_service.update_payment_status: sets `paymentStatus`; when the
new value is completed and the booking is still pending, the `$set`
additionally carries `status := confirmed`. -/
def update_payment_status (db : DB) (booking_id : Nat)
    (payment_status : PaymentStatus) : DB × Option Booking :=
  match get_booking_by_id db booking_id with
  | none => (db, none)
  | some booking =>
    let db1 : DB :=
      { db with
        bookings := updateFirst (fun b => b.id == booking_id)
          (fun b =>
            { b with
              paymentStatus := payment_status
              status :=
                if payment_status = PaymentStatus.completed ∧
                    booking.status = BookingStatus.pending then
                  BookingStatus.confirmed
                else b.status }) db.bookings }
    (db1, get_booking_by_id db1 booking_id)

/-- Python truthiness of an optional string (`if reason:`). -/
def strTruthy : Option String → Bool
  | none => false
  | some s => s ≠ ""

/-- booking_service.reschedule_booking: overwrite schedule fields, set
status rescheduled, store the reason when it is truthy. -/
def reschedule_booking (db : DB) (booking_id : Nat) (date : Nat)
    (start_time end_time : String) (reason : Option String) :
    DB × Option Booking :=
  match get_booking_by_id db booking_id with
  | none => (db, none)
  | some booking =>
    if booking.status = BookingStatus.completed ∨
        booking.status = BookingStatus.cancelled ∨
        booking.status = BookingStatus.noShow then (db, none)
    else
      let db1 : DB :=
        { db with
          bookings := updateFirst (fun b => b.id == booking_id)
            (fun b =>
              { b with
                date := date
                startTime := start_time
                endTime := end_time
                status := BookingStatus.rescheduled
                rescheduleReason :=
                  if strTruthy reason then reason else b.rescheduleReason })
            db.bookings }
      (db1, get_booking_by_id db1 booking_id)

/-- The `$match` + `$avg` pipeline of booking_service.update_stylist_rating:
the ratings of the stylist's bookings whose `rating` field is set. -/
def ratedBookingRatings (db : DB) (stylist_id : String) : List Int :=
  (db.bookings.filter
    (fun b => b.stylistId == stylist_id && b.rating.isSome)).filterMap
    (fun b => b.rating)

namespace BookingService

/-- booking_service.update_stylist_rating: if the aggregation returned a
group (at least one rated booking), write round(avg, 1) and the count to
the stylist record; an empty aggregation result performs no write. -/
def update_stylist_rating (db : DB) (stylist_id : String) : DB :=
  let ratings := ratedBookingRatings db stylist_id
  if ratings.isEmpty then db
  else
    let avg : ℚ := ((ratings.map (fun r => (r : ℚ))).sum) / (ratings.length : ℚ)
    { db with
      stylists := updateFirst (fun s => s.id == stylist_id)
        (fun s => { s with rating := roundTo 1 avg, reviewCount := ratings.length })
        db.stylists }

end BookingService

/-- The ratings in the `stylists_reviews` collection for a stylist
(review_service.update_stylist_rating's aggregation input). -/
def stylistReviewRatings (db : DB) (stylist_id : String) : List Int :=
  (db.stylists_reviews.filter (fun r => r.stylistId == stylist_id)).map
    (fun r => r.rating)

namespace ReviewService

/-- review_service.update_stylist_rating: with no reviews, writes
rating 0.0 and reviewCount 0; otherwise writes round(avg, 1) and the
count. -/
def update_stylist_rating (db : DB) (stylist_id : String) : DB :=
  let ratings := stylistReviewRatings db stylist_id
  if ratings.isEmpty then
    { db with
      stylists := updateFirst (fun s => s.id == stylist_id)
        (fun s => { s with rating := 0, reviewCount := 0 }) db.stylists }
  else
    let avg : ℚ := ((ratings.map (fun r => (r : ℚ))).sum) / (ratings.length : ℚ)
    { db with
      stylists := updateFirst (fun s => s.id == stylist_id)
        (fun s => { s with rating := roundTo 1 avg, reviewCount := ratings.length })
        db.stylists }

end ReviewService

/-- The `update_many` that clears `isDefault` on every method of a user. -/
def clearUserDefaults (user_id : String) (ms : List PaymentMethodDoc) :
    List PaymentMethodDoc :=
  ms.map (fun m => if m.userId == user_id then { m with isDefault := false } else m)

/-- payment_service.add_payment_method restricted to the fields the
default-flag logic touches: when the new method is default, first clear
the user's existing default flags, then insert. -/
def add_payment_method (db : DB) (user_id : String) (isDefault : Bool)
    (newMethodId : Nat) : DB × PaymentMethodDoc :=
  let ms :=
    if isDefault then clearUserDefaults user_id db.payment_methods
    else db.payment_methods
  let created : PaymentMethodDoc :=
    { id := newMethodId, userId := user_id, isDefault := isDefault }
  ({ db with payment_methods := ms ++ [created] }, created)

/-- payment_service.set_default_payment_method: clear every default flag
of the user, then set the selected method (matched by id and owner) as
default; returns whether a document was modified. -/
def set_default_payment_method (db : DB) (method_id : Nat) (user_id : String) :
    DB × Bool :=
  let cleared := clearUserDefaults user_id db.payment_methods
  let updated := updateFirst
    (fun m => m.id == method_id && m.userId == user_id)
    (fun m => { m with isDefault := true }) cleared
  ({ db with payment_methods := updated },
   (cleared.find? (fun m => m.id == method_id && m.userId == user_id)).isSome)

/-- Count of a user's stored payment methods carrying the default flag. -/
def defaultCount (db : DB) (user_id : String) : Nat :=
  (db.payment_methods.filter (fun m => m.userId == user_id && m.isDefault)).length

/-- A positional argument value in a dynamic Python call. -/
inductive PyVal
  | nat (n : Nat)
  | str (s : String)
  deriving DecidableEq, Repr

/-- Outcome of a dynamic Python call: either the callee runs, or the call
itself raises TypeError because the argument list does not fit the
callee's signature. -/
inductive PyCallResult (α : Type)
  | ok (a : α)
  | typeError
  deriving DecidableEq, Repr

/-- Dynamic call of booking_service.start_session(booking_id, otp_code):
the signature requires exactly two positional arguments. -/
def start_session_call (db : DB) : List PyVal → PyCallResult (DB × Option Booking)
  | [PyVal.nat booking_id, PyVal.str otp_code] =>
    PyCallResult.ok (start_session db booking_id otp_code)
  | _ => PyCallResult.typeError

/-- Dynamic call of booking_service.complete_booking(booking_id): the
signature requires exactly one positional argument. -/
def complete_booking_call (db : DB) : List PyVal → PyCallResult (DB × Option Booking)
  | [PyVal.nat booking_id] =>
    PyCallResult.ok (complete_booking db booking_id)
  | _ => PyCallResult.typeError

/-- What an endpoint handler in bookings_new.py can produce. -/
inductive HandlerResult
  | notFound
  | forbidden
  | badRequest
  | ok (b : Booking)
  | typeError
  deriving DecidableEq, Repr

/-- bookings_new.start_booking_session: after the existence and
stylist-authorization guards (the latter resolved outside the store model
and passed in as `stylistMatches`), the handler invokes
`start_session(booking_id)` — a single positional argument.  A TypeError
raised by the call propagates before any store write. -/
def start_booking_session (db : DB) (booking_id : Nat) (stylistMatches : Bool) :
    DB × HandlerResult :=
  match get_booking_by_id db booking_id with
  | none => (db, HandlerResult.notFound)
  | some _ =>
    if ¬ stylistMatches then (db, HandlerResult.forbidden)
    else
      match start_session_call db [PyVal.nat booking_id] with
      | PyCallResult.typeError => (db, HandlerResult.typeError)
      | PyCallResult.ok (db1, none) => (db1, HandlerResult.badRequest)
      | PyCallResult.ok (db1, some b) => (db1, HandlerResult.ok b)

/-- bookings_new.complete_booking_session: after the guards, the handler
invokes `complete_booking(booking_id, otp_data.otpCode)` — two positional
arguments. -/
def complete_booking_session (db : DB) (booking_id : Nat) (otpCode : String)
    (stylistMatches : Bool) : DB × HandlerResult :=
  match get_booking_by_id db booking_id with
  | none => (db, HandlerResult.notFound)
  | some _ =>
    if ¬ stylistMatches then (db, HandlerResult.forbidden)
    else
      match complete_booking_call db [PyVal.nat booking_id, PyVal.str otpCode] with
      | PyCallResult.typeError => (db, HandlerResult.typeError)
      | PyCallResult.ok (db1, none) => (db1, HandlerResult.badRequest)
      | PyCallResult.ok (db1, some b) => (db1, HandlerResult.ok b)

/-- A confirmed booking used in concrete evaluations. -/
def exBooking : Booking :=
  { id := 1, stylistId := "sty1", clientId := "cli1", date := 20260110
    startTime := "10:00", endTime := "11:00", price := 1000, duration := 60
    isOnlineSession := true, status := BookingStatus.confirmed
    paymentStatus := PaymentStatus.pending, otpCode := "1234"
    meetingLink := some "https://meet.example/1", rating := none, review := none
    cancellationReason := none, rescheduleReason := none }

/-- The same booking before payment confirmation. -/
def exBkPending : Booking := { exBooking with status := BookingStatus.pending }

/-- An empty document store. -/
def emptyDB : DB :=
  { bookings := [], payments := [], transactions := [], payment_methods := []
    stylists := [], stylists_reviews := [] }

/-- Store holding one confirmed booking. -/
def exDbConfirmed : DB := { emptyDB with bookings := [exBooking] }

/-- Store holding one pending booking. -/
def exDbPending : DB := { emptyDB with bookings := [exBkPending] }

/-- The payment create_payment produces for exDbConfirmed at amount 100. -/
def pC1 : Payment :=
  { id := 7, bookingId := 1, clientId := "cli1", stylistId := "sty1"
    amount := 100, currency := "INR", status := PaymentStatus.completed
    platformFee := 10, stylistAmount := 90, transactionId := some "txn1"
    errorMessage := none, refundTransactionId := none, refundReason := none }

/-- Store holding a completed payment and its booking. -/
def exDbWithPayment : DB :=
  { emptyDB with bookings := [exBooking], payments := [pC1] }

/-- A stylist record carrying a previously computed aggregate. -/
def exStylist : Stylist := { id := "sty1", rating := 9 / 2, reviewCount := 7 }

/-- Store where the stylist has a stored aggregate but zero rated bookings. -/
def exDbStale : DB :=
  { emptyDB with bookings := [exBooking], stylists := [exStylist] }

/-- A completed booking carrying a rating. -/
def exRatedBooking : Booking :=
  { exBooking with id := 2, status := BookingStatus.completed, rating := some 5 }

/-- Store with reviews [5,4,3] in the reviews collection and one rated booking. -/
def exDbReviews : DB :=
  { emptyDB with
    bookings := [exRatedBooking]
    stylists := [{ id := "sty1", rating := 0, reviewCount := 0 }]
    stylists_reviews := [{ stylistId := "sty1", rating := 5 },
      { stylistId := "sty1", rating := 4 }, { stylistId := "sty1", rating := 3 }] }

/-- Store with two stored methods for one user, one of them default. -/
def exDbMethods : DB :=
  { emptyDB with
    payment_methods := [{ id := 1, userId := "u1", isDefault := true },
      { id := 2, userId := "u1", isDefault := false }] }

/-- `find?` after `update_one`: when the rewrite preserves the filter, the
first match of the rewritten list is the rewritten first match. -/
theorem updateFirst_find? {α : Type} (p : α → Bool) (f : α → α)
    (hp : ∀ x, p x = true → p (f x) = true) (xs : List α) :
    (updateFirst p f xs).find? p = (xs.find? p).map f := by
  induction xs with
  | nil => rfl
  | cons x xs ih =>
    by_cases hx : p x = true
    · simp only [updateFirst, if_pos hx]
      rw [List.find?_cons_of_pos _ (hp x hx), List.find?_cons_of_pos _ hx]
      rfl
    · simp only [updateFirst, if_neg hx]
      rw [List.find?_cons_of_neg _ hx, List.find?_cons_of_neg _ hx, ih]

/-- Every record of an `update_one` result is either an untouched record of
the input or the rewrite of a matching input record. -/
theorem mem_updateFirst {α : Type} {p : α → Bool} {f : α → α} {xs : List α}
    {y : α} (hy : y ∈ updateFirst p f xs) :
    y ∈ xs ∨ ∃ x, x ∈ xs ∧ p x = true ∧ y = f x := by
  induction xs with
  | nil => cases hy
  | cons x xs ih =>
    by_cases hx : p x = true
    · simp only [updateFirst, if_pos hx, List.mem_cons] at hy
      rcases hy with h | h
      · exact Or.inr ⟨x, List.mem_cons_self x xs, hx, h⟩
      · exact Or.inl (List.mem_cons_of_mem x h)
    · simp only [updateFirst, if_neg hx, List.mem_cons] at hy
      rcases hy with h | h
      · exact Or.inl (h ▸ List.mem_cons_self x xs)
      · rcases ih h with h1 | ⟨z, hz, hpz, hyz⟩
        · exact Or.inl (List.mem_cons_of_mem x h1)
        · exact Or.inr ⟨z, List.mem_cons_of_mem x hz, hpz, hyz⟩

/-- Count of default-flagged methods of a user in a raw method list. -/
def countDefaults (user_id : String) (ms : List PaymentMethodDoc) : Nat :=
  (ms.filter (fun m => m.userId == user_id && m.isDefault)).length

theorem defaultCount_eq (db : DB) (u : String) :
    defaultCount db u = countDefaults u db.payment_methods := rfl

/-- Unfolding a default count over a cons cell. -/
theorem countDefaults_cons (u : String) (m : PaymentMethodDoc)
    (ms : List PaymentMethodDoc) :
    countDefaults u (m :: ms)
      = (if m.userId == u && m.isDefault then 1 else 0) + countDefaults u ms := by
  by_cases hd : (m.userId == u && m.isDefault) = true
  · simp [countDefaults, List.filter_cons, hd]
    omega
  · simp [countDefaults, List.filter_cons, hd]

/-- Clearing a user's default flags zeroes that user's default count. -/
theorem countDefaults_clear_self (u : String) (ms : List PaymentMethodDoc) :
    countDefaults u (clearUserDefaults u ms) = 0 := by
  induction ms with
  | nil => rfl
  | cons m ms ih =>
    have hcons : clearUserDefaults u (m :: ms)
        = (if m.userId == u then { m with isDefault := false } else m) ::
            clearUserDefaults u ms := rfl
    rw [hcons, countDefaults_cons]
    by_cases hm : (m.userId == u) = true
    · simp [hm, ih]
    · simp [hm, ih]

/-- Clearing one user's default flags leaves every other user's count alone. -/
theorem countDefaults_clear_other {u u' : String} (h : u ≠ u')
    (ms : List PaymentMethodDoc) :
    countDefaults u (clearUserDefaults u' ms) = countDefaults u ms := by
  induction ms with
  | nil => rfl
  | cons m ms ih =>
    have hcons : clearUserDefaults u' (m :: ms)
        = (if m.userId == u' then { m with isDefault := false } else m) ::
            clearUserDefaults u' ms := rfl
    rw [hcons, countDefaults_cons, countDefaults_cons, ih]
    by_cases hm : (m.userId == u') = true
    · have hmu : (m.userId == u) = false := by
        have hval : m.userId = u' := by simpa using hm
        simp [hval, Ne.symm h]
      simp [hm, hmu]
    · simp [hm]

/-- Appending one method adds its own contribution to the count. -/
theorem countDefaults_append (u : String) (ms : List PaymentMethodDoc)
    (m : PaymentMethodDoc) :
    countDefaults u (ms ++ [m])
      = countDefaults u ms + (if m.userId == u && m.isDefault then 1 else 0) := by
  by_cases hd : (m.userId == u && m.isDefault) = true
  · simp [countDefaults, List.filter_append, List.filter_cons, hd]
  · simp [countDefaults, List.filter_append, List.filter_cons, hd]

/-- An `update_one` raises a default count by at most one. -/
theorem countDefaults_updateFirst_le (u : String) (p : PaymentMethodDoc → Bool)
    (f : PaymentMethodDoc → PaymentMethodDoc) (ms : List PaymentMethodDoc) :
    countDefaults u (updateFirst p f ms) ≤ countDefaults u ms + 1 := by
  induction ms with
  | nil => simp [updateFirst, countDefaults]
  | cons m ms ih =>
    by_cases hm : p m = true
    · rw [show updateFirst p f (m :: ms) = f m :: ms from by simp [updateFirst, hm]]
      rw [countDefaults_cons, countDefaults_cons]
      by_cases h1 : ((f m).userId == u && (f m).isDefault) = true
      · by_cases h2 : (m.userId == u && m.isDefault) = true
        · simp [h1, h2]
        · simp [h1, h2]
          omega
      · by_cases h2 : (m.userId == u && m.isDefault) = true
        · simp [h1, h2]
          omega
        · simp [h1, h2]
    · rw [show updateFirst p f (m :: ms) = m :: updateFirst p f ms from by
        simp [updateFirst, hm]]
      rw [countDefaults_cons, countDefaults_cons]
      by_cases hd : (m.userId == u && m.isDefault) = true
      · simp only [hd, if_pos]
        omega
      · simp only [hd, if_neg, Bool.not_eq_true]
        omega

/-- An `update_one` whose filter and rewrite never touch user `u`'s rows
leaves `u`'s default count unchanged. -/
theorem countDefaults_updateFirst_other (u : String) (p : PaymentMethodDoc → Bool)
    (f : PaymentMethodDoc → PaymentMethodDoc)
    (hpf : ∀ x, p x = true → (x.userId == u) = false ∧ ((f x).userId == u) = false)
    (ms : List PaymentMethodDoc) :
    countDefaults u (updateFirst p f ms) = countDefaults u ms := by
  induction ms with
  | nil => rfl
  | cons m ms ih =>
    by_cases hm : p m = true
    · obtain ⟨h1, h2⟩ := hpf m hm
      rw [show updateFirst p f (m :: ms) = f m :: ms from by simp [updateFirst, hm]]
      rw [countDefaults_cons, countDefaults_cons]
      simp [h1, h2]
    · rw [show updateFirst p f (m :: ms) = m :: updateFirst p f ms from by
        simp [updateFirst, hm]]
      rw [countDefaults_cons, countDefaults_cons, ih]

/-- Unfolding lemma for the booking lookup. -/
theorem get_booking_by_id_def (db : DB) (booking_id : Nat) :
    get_booking_by_id db booking_id
      = db.bookings.find? (fun b => b.id == booking_id) := rfl

/-- Unfolding lemma for the payment lookup. -/
theorem get_payment_by_id_def (db : DB) (payment_id : Nat) :
    get_payment_by_id db payment_id
      = db.payments.find? (fun p => p.id == payment_id) := rfl

/-- Unfolding lemma for the stylist lookup. -/
theorem get_stylist_def (db : DB) (stylist_id : String) :
    get_stylist db stylist_id
      = db.stylists.find? (fun s => s.id == stylist_id) := rfl

/-- Rounding an exact integer returns that integer. -/
theorem roundHalfEven_intCast (n : ℤ) : roundHalfEven (n : ℚ) = n := by
  simp only [roundHalfEven, Int.floor_intCast, sub_self]
  rw [if_pos (by norm_num)]

/-- Evaluation rule for `roundTo` when the scaled value is exact. -/
theorem roundTo_eq (d : ℕ) (x : ℚ) (n : ℤ) (h : x * (10 : ℚ) ^ d = (n : ℚ)) :
    roundTo d x = (n : ℚ) / (10 : ℚ) ^ d := by
  simp only [roundTo]
  rw [h, roundHalfEven_intCast]

/-- The platform fee of a 100-unit capture evaluates to 10. -/
theorem roundTo_fee_100 :
    roundTo 2 ((100 : ℚ) * (PLATFORM_FEE_PERCENTAGE / 100)) = 10 := by
  rw [roundTo_eq 2 _ 1000 (by norm_num [PLATFORM_FEE_PERCENTAGE])]
  norm_num

/-- Evaluation of create_payment on the success path (booking found,
owned by the caller, gateway call succeeded). -/
theorem create_payment_ok (db : DB) (bookingId : Nat) (amount : ℚ)
    (currency client_id : String) (r : GatewayResult) (newPaymentId : Nat)
    (bk : Booking) (hb : get_booking_by_id db bookingId = some bk)
    (hc : bk.clientId = client_id) :
    create_payment db bookingId amount currency client_id (Except.ok r)
        newPaymentId
      = ({ db with
           payments := db.payments ++
             [{ id := newPaymentId, bookingId := bookingId
                clientId := client_id, stylistId := bk.stylistId
                amount := amount, currency := currency
                status := PaymentStatus.completed
                platformFee := roundTo 2 (amount * (PLATFORM_FEE_PERCENTAGE / 100))
                stylistAmount :=
                  amount - roundTo 2 (amount * (PLATFORM_FEE_PERCENTAGE / 100))
                transactionId := some r.id, errorMessage := none
                refundTransactionId := none, refundReason := none }]
           transactions := db.transactions ++
             [{ userId := client_id, type := TransactionType.payment
                amount := amount, currency := currency
                status := PaymentStatus.completed, bookingId := some bookingId
                paymentId := some newPaymentId
                fee := some (roundTo 2 (amount * (PLATFORM_FEE_PERCENTAGE / 100))) },
              { userId := "platform", type := TransactionType.fee
                amount := roundTo 2 (amount * (PLATFORM_FEE_PERCENTAGE / 100))
                currency := currency, status := PaymentStatus.completed
                bookingId := some bookingId, paymentId := some newPaymentId
                fee := none }]
           bookings := updateFirst (fun b => b.id == bookingId)
             (fun b => { b with paymentStatus := PaymentStatus.completed })
             db.bookings },
         some { id := newPaymentId, bookingId := bookingId
                clientId := client_id, stylistId := bk.stylistId
                amount := amount, currency := currency
                status := PaymentStatus.completed
                platformFee := roundTo 2 (amount * (PLATFORM_FEE_PERCENTAGE / 100))
                stylistAmount :=
                  amount - roundTo 2 (amount * (PLATFORM_FEE_PERCENTAGE / 100))
                transactionId := some r.id, errorMessage := none
                refundTransactionId := none, refundReason := none }) := by
  simp only [create_payment, hb]
  rw [if_neg (by simp [hc])]

/-- Evaluation of create_payment when the gateway call raises. -/
theorem create_payment_err (db : DB) (bookingId : Nat) (amount : ℚ)
    (currency client_id errMsg : String) (newPaymentId : Nat)
    (bk : Booking) (hb : get_booking_by_id db bookingId = some bk)
    (hc : bk.clientId = client_id) :
    create_payment db bookingId amount currency client_id
        (Except.error errMsg) newPaymentId
      = ({ db with
           payments := db.payments ++
             [{ id := newPaymentId, bookingId := bookingId
                clientId := client_id, stylistId := bk.stylistId
                amount := amount, currency := currency
                status := PaymentStatus.failed
                platformFee := roundTo 2 (amount * (PLATFORM_FEE_PERCENTAGE / 100))
                stylistAmount :=
                  amount - roundTo 2 (amount * (PLATFORM_FEE_PERCENTAGE / 100))
                transactionId := none, errorMessage := some errMsg
                refundTransactionId := none, refundReason := none }] },
         none) := by
  simp only [create_payment, hb]
  rw [if_neg (by simp [hc])]

/-- Evaluation of refund_payment on the success path (payment found,
status completed, gateway refund succeeded). -/
theorem refund_payment_ok (db : DB) (payment_id : Nat) (reason : Option String)
    (r : GatewayResult) (pay : Payment)
    (hp : get_payment_by_id db payment_id = some pay)
    (hs : pay.status = PaymentStatus.completed) :
    refund_payment db payment_id reason (Except.ok r)
      = (let db3 : DB :=
          { db with
            payments := updateFirst (fun q => q.id == payment_id)
              (fun q =>
                { q with
                  status := PaymentStatus.refunded
                  refundTransactionId := some r.id
                  refundReason := reason }) db.payments
            transactions := db.transactions ++
              [{ userId := pay.clientId, type := TransactionType.refund
                 amount := pay.amount, currency := pay.currency
                 status := PaymentStatus.completed
                 bookingId := some pay.bookingId
                 paymentId := some payment_id, fee := none }]
            bookings := updateFirst (fun b => b.id == pay.bookingId)
              (fun b => { b with paymentStatus := PaymentStatus.refunded })
              db.bookings }
         (db3, get_payment_by_id db3 payment_id)) := by
  simp only [refund_payment, hp]
  rw [if_neg (by simp [hs])]

/-- Claim C1: every payment persisted by a successful capture carries
platformFee = round(amount · 10/100, 2) and stylistAmount =
amount − platformFee, so platformFee + stylistAmount = amount exactly;
and the refund operation — the only later write to payment rows — never
recomputes either field (every payment row after a refund call is a row
of the original store up to the refund bookkeeping fields). -/
theorem C1_fee_split_invariant
    (db : DB) (bookingId : Nat) (amount : ℚ) (currency client_id : String)
    (gateway : Except String GatewayResult) (newPaymentId payment_id : Nat)
    (reason : Option String) (gw2 : Except String GatewayResult) :
    (∀ p : Payment,
      (create_payment db bookingId amount currency client_id gateway
          newPaymentId).2 = some p →
      p.platformFee = roundTo 2 (amount * (PLATFORM_FEE_PERCENTAGE / 100)) ∧
      p.stylistAmount = amount - p.platformFee ∧
      p.platformFee + p.stylistAmount = amount) ∧
    (∀ q, q ∈ (refund_payment db payment_id reason gw2).1.payments →
      ∃ q0, q0 ∈ db.payments ∧ q.id = q0.id ∧ q.amount = q0.amount ∧
        q.platformFee = q0.platformFee ∧ q.stylistAmount = q0.stylistAmount) := by
  constructor
  · intro p hp
    simp only [create_payment] at hp
    split at hp
    · simp at hp
    · split at hp
      · simp at hp
      · split at hp
        · simp at hp
        · simp only [Option.some.injEq] at hp
          subst hp
          refine ⟨rfl, rfl, ?_⟩
          ring
  · intro q hq
    simp only [refund_payment] at hq
    split at hq
    · exact ⟨q, hq, rfl, rfl, rfl, rfl⟩
    · split at hq
      · exact ⟨q, hq, rfl, rfl, rfl, rfl⟩
      · split at hq
        · exact ⟨q, hq, rfl, rfl, rfl, rfl⟩
        · rcases mem_updateFirst hq with h | ⟨x, hx, hpx, rfl⟩
          · exact ⟨q, h, rfl, rfl, rfl, rfl⟩
          · exact ⟨x, hx, rfl, rfl, rfl, rfl⟩

/-- Witness for C1: a concrete capture of amount 100 yields
platformFee 10, stylistAmount 90, and the exact split. -/
theorem C1_fee_split_invariant_witness :
    (create_payment exDbConfirmed 1 100 "INR" "cli1"
        (Except.ok { id := "txn1" }) 7).2 = some pC1 ∧
    pC1.platformFee = roundTo 2 (100 * (PLATFORM_FEE_PERCENTAGE / 100)) ∧
    pC1.stylistAmount = 100 - pC1.platformFee ∧
    pC1.platformFee + pC1.stylistAmount = 100 := by
  have hcp : (create_payment exDbConfirmed 1 100 "INR" "cli1"
      (Except.ok { id := "txn1" }) 7).2 = some pC1 := by
    rw [create_payment_ok exDbConfirmed 1 100 "INR" "cli1" { id := "txn1" } 7
      exBooking rfl rfl]
    simp [pC1, exBooking, roundTo_fee_100]
    norm_num
  exact ⟨hcp,
    (C1_fee_split_invariant exDbConfirmed 1 100 "INR" "cli1"
      (Except.ok { id := "txn1" }) 7 7 none (Except.ok { id := "r1" })).1
      pC1 hcp⟩

/-- Claim C2 (amended): a successful capture writes exactly two new
Transaction rows referencing the Payment's id — one type=payment with
userId = clientId whose amount is the Payment's full gross amount, and
one type=fee with userId = "platform" whose amount is the platformFee —
so the two amounts sum to amount + platformFee, not to the Payment's
amount. -/
theorem C2_capture_transactions
    (db : DB) (bookingId : Nat) (amount : ℚ) (currency client_id : String)
    (r : GatewayResult) (newPaymentId : Nat) (bk : Booking)
    (hb : get_booking_by_id db bookingId = some bk)
    (hc : bk.clientId = client_id) :
    ∃ t1 t2 : Transaction,
      (create_payment db bookingId amount currency client_id (Except.ok r)
          newPaymentId).1.transactions = db.transactions ++ [t1, t2] ∧
      t1.type = TransactionType.payment ∧ t1.userId = client_id ∧
      t1.paymentId = some newPaymentId ∧ t1.amount = amount ∧
      t2.type = TransactionType.fee ∧ t2.userId = "platform" ∧
      t2.paymentId = some newPaymentId ∧
      t2.amount = roundTo 2 (amount * (PLATFORM_FEE_PERCENTAGE / 100)) ∧
      (∃ p, (create_payment db bookingId amount currency client_id (Except.ok r)
          newPaymentId).2 = some p ∧ p.id = newPaymentId ∧ p.amount = amount ∧
        t1.amount + t2.amount = p.amount + p.platformFee) ∧
      ((∀ t ∈ db.transactions, t.paymentId ≠ some newPaymentId) →
        ((create_payment db bookingId amount currency client_id (Except.ok r)
            newPaymentId).1.transactions.filter
          (fun t => t.paymentId == some newPaymentId)) = [t1, t2]) := by
  rw [create_payment_ok db bookingId amount currency client_id r newPaymentId
    bk hb hc]
  refine ⟨_, _, rfl, rfl, rfl, rfl, rfl, rfl, rfl, rfl, rfl,
    ⟨_, rfl, rfl, rfl, rfl⟩, ?_⟩
  intro hfresh
  rw [List.filter_append]
  have h1 : db.transactions.filter (fun t => t.paymentId == some newPaymentId)
      = [] := by
    rw [List.filter_eq_nil_iff]
    intro t ht
    simpa using hfresh t ht
  rw [h1]
  simp

/-- Counterexample to C2 as stated: at amount 100 the two new transaction
rows carry amounts 100 and 10, which sum to 110 and not to the Payment's
amount 100. -/
theorem C2_counterexample :
    ((create_payment exDbConfirmed 1 100 "INR" "cli1"
        (Except.ok { id := "txn1" }) 7).1.transactions.map Transaction.amount).sum
      = 110 ∧
    (create_payment exDbConfirmed 1 100 "INR" "cli1"
        (Except.ok { id := "txn1" }) 7).2 = some pC1 ∧
    pC1.amount = 100 ∧ ((110 : ℚ) ≠ 100) := by
  rw [create_payment_ok exDbConfirmed 1 100 "INR" "cli1" { id := "txn1" } 7
    exBooking rfl rfl]
  refine ⟨?_, ?_, rfl, by norm_num⟩
  · show ((exDbConfirmed.transactions ++ _).map Transaction.amount).sum = 110
    simp [exDbConfirmed, emptyDB, roundTo_fee_100]
    norm_num
  · simp [pC1, exBooking, roundTo_fee_100]
    norm_num

/-- Claim C3 (amended): start_session succeeds — setting the booking's
status to inProgress and changing nothing else — exactly when the booking
is confirmed and the supplied OTP equals the stored otpCode; in every
other combination it returns None with the store untouched.  The two
failure modes are not distinguishable to the caller: both the status
check and the OTP mismatch produce the same None result. -/
theorem C3_start_session_iff (db : DB) (booking_id : Nat) (otp : String) :
    (get_booking_by_id db booking_id = none →
      start_session db booking_id otp = (db, none)) ∧
    (∀ bk, get_booking_by_id db booking_id = some bk →
      (bk.status = BookingStatus.confirmed → bk.otpCode = otp →
        (start_session db booking_id otp).2
            = some { bk with status := BookingStatus.inProgress } ∧
        get_booking_by_id (start_session db booking_id otp).1 booking_id
            = some { bk with status := BookingStatus.inProgress }) ∧
      (bk.status ≠ BookingStatus.confirmed →
        start_session db booking_id otp = (db, none)) ∧
      (bk.otpCode ≠ otp →
        start_session db booking_id otp = (db, none))) := by
  constructor
  · intro h
    simp [start_session, h]
  · intro bk hb
    refine ⟨?_, ?_, ?_⟩
    · intro hst hotp
      have hfind : (updateFirst (fun b => b.id == booking_id)
          (fun b => { b with status := BookingStatus.inProgress })
          db.bookings).find? (fun b => b.id == booking_id)
          = some { bk with status := BookingStatus.inProgress } := by
        rw [updateFirst_find? (fun b : Booking => b.id == booking_id)
          (fun b : Booking => { b with status := BookingStatus.inProgress })
          (fun x hx => hx)]
        rw [← get_booking_by_id_def, hb]
        rfl
      constructor
      · simp only [start_session, hb]
        rw [if_neg (by simp [hst]), if_neg (by simp [hotp])]
        exact hfind
      · simp only [start_session, hb]
        rw [if_neg (by simp [hst]), if_neg (by simp [hotp])]
        exact hfind
    · intro hst
      simp only [start_session, hb]
      rw [if_pos hst]
    · intro hotp
      by_cases hst : bk.status = BookingStatus.confirmed
      · simp only [start_session, hb]
        rw [if_neg (by simp [hst]), if_pos hotp]
      · simp only [start_session, hb]
        rw [if_pos hst]

/-- Counterexample to C3's distinguishability conjunct: a status failure
(pending booking, correct OTP) and an OTP failure (confirmed booking,
wrong OTP) produce the identical None result, so InvalidState and
AuthFailed are not two distinguishable failures in the code. -/
theorem C3_counterexample :
    exBkPending.status ≠ BookingStatus.confirmed ∧
    exBkPending.otpCode = "1234" ∧
    get_booking_by_id exDbPending 1 = some exBkPending ∧
    exBooking.status = BookingStatus.confirmed ∧
    exBooking.otpCode ≠ "9999" ∧
    get_booking_by_id exDbConfirmed 1 = some exBooking ∧
    start_session exDbPending 1 "1234" = (exDbPending, none) ∧
    start_session exDbConfirmed 1 "9999" = (exDbConfirmed, none) ∧
    (start_session exDbPending 1 "1234").2
      = (start_session exDbConfirmed 1 "9999").2 := by
  refine ⟨by decide, rfl, rfl, rfl, by decide, rfl, by decide, by decide, by decide⟩

/-- Claim C4: the start endpoint passes one positional argument to the
two-parameter start_session, and the complete endpoint passes two to the
one-parameter complete_booking, so both handlers always raise TypeError
after their guards pass, never return a booking, and never change the
store — in particular no booking ever moves from confirmed to inProgress
through the endpoint. -/
theorem C4_endpoint_arity (db : DB) (booking_id : Nat) (otp : String)
    (sm sm2 : Bool) :
    (start_booking_session db booking_id sm).1 = db ∧
    (∀ b, (start_booking_session db booking_id sm).2 ≠ HandlerResult.ok b) ∧
    (get_booking_by_id db booking_id ≠ none → sm = true →
      (start_booking_session db booking_id sm).2 = HandlerResult.typeError) ∧
    (complete_booking_session db booking_id otp sm2).1 = db ∧
    (∀ b, (complete_booking_session db booking_id otp sm2).2
      ≠ HandlerResult.ok b) ∧
    (get_booking_by_id db booking_id ≠ none → sm2 = true →
      (complete_booking_session db booking_id otp sm2).2
        = HandlerResult.typeError) := by
  refine ⟨?_, ?_, ?_, ?_, ?_, ?_⟩
  · cases hbk : get_booking_by_id db booking_id with
    | none => simp [start_booking_session, hbk]
    | some bk =>
      by_cases h3 : sm
      · simp [start_booking_session, hbk, h3, start_session_call]
      · simp [start_booking_session, hbk, h3]
  · intro b
    cases hbk : get_booking_by_id db booking_id with
    | none => simp [start_booking_session, hbk]
    | some bk =>
      by_cases h3 : sm
      · simp [start_booking_session, hbk, h3, start_session_call]
      · simp [start_booking_session, hbk, h3]
  · intro hne h3
    cases hbk : get_booking_by_id db booking_id with
    | none => exact absurd hbk hne
    | some bk => simp [start_booking_session, hbk, h3, start_session_call]
  · cases hbk : get_booking_by_id db booking_id with
    | none => simp [complete_booking_session, hbk]
    | some bk =>
      by_cases h3 : sm2
      · simp [complete_booking_session, hbk, h3, complete_booking_call]
      · simp [complete_booking_session, hbk, h3]
  · intro b
    cases hbk : get_booking_by_id db booking_id with
    | none => simp [complete_booking_session, hbk]
    | some bk =>
      by_cases h3 : sm2
      · simp [complete_booking_session, hbk, h3, complete_booking_call]
      · simp [complete_booking_session, hbk, h3]
  · intro hne h3
    cases hbk : get_booking_by_id db booking_id with
    | none => exact absurd hbk hne
    | some bk => simp [complete_booking_session, hbk, h3, complete_booking_call]

/-- Witness for C4: on a store holding a confirmed booking, with the
stylist authorization check passing, both endpoint handlers produce the
TypeError outcome. -/
theorem C4_endpoint_arity_witness :
    get_booking_by_id exDbConfirmed 1 ≠ none ∧
    (start_booking_session exDbConfirmed 1 true).2 = HandlerResult.typeError ∧
    (complete_booking_session exDbConfirmed 1 "1234" true).2
      = HandlerResult.typeError :=
  ⟨by decide,
   (C4_endpoint_arity exDbConfirmed 1 "1234" true true).2.2.1 (by decide) rfl,
   (C4_endpoint_arity exDbConfirmed 1 "1234" true true).2.2.2.2.2 (by decide) rfl⟩

/-- Claim C5 (amended): the reviews-collection recompute
(review_service.update_stylist_rating) writes round(mean, 1) and the
review count onto the stylist record and resets them to 0.0 and 0 when
the stylist has zero reviews; the booking-based recompute
(booking_service.update_stylist_rating) writes round(mean, 1) and the
count when at least one rated booking exists, but performs no write at
all when there are zero ratings, leaving previously stored values in
place. -/
theorem C5_rating_recompute (db : DB) (stylist_id : String) :
    (∀ s, get_stylist db stylist_id = some s →
      (stylistReviewRatings db stylist_id = [] →
        get_stylist (ReviewService.update_stylist_rating db stylist_id)
            stylist_id = some { s with rating := 0, reviewCount := 0 }) ∧
      (stylistReviewRatings db stylist_id ≠ [] →
        get_stylist (ReviewService.update_stylist_rating db stylist_id)
            stylist_id
          = some { s with
              rating := roundTo 1
                (((stylistReviewRatings db stylist_id).map
                    (fun v => (v : ℚ))).sum /
                  ((stylistReviewRatings db stylist_id).length : ℚ))
              reviewCount := (stylistReviewRatings db stylist_id).length })) ∧
    (∀ s, get_stylist db stylist_id = some s →
      ratedBookingRatings db stylist_id ≠ [] →
      get_stylist (BookingService.update_stylist_rating db stylist_id)
          stylist_id
        = some { s with
            rating := roundTo 1
              (((ratedBookingRatings db stylist_id).map
                  (fun v => (v : ℚ))).sum /
                ((ratedBookingRatings db stylist_id).length : ℚ))
            reviewCount := (ratedBookingRatings db stylist_id).length }) ∧
    (ratedBookingRatings db stylist_id = [] →
      BookingService.update_stylist_rating db stylist_id = db) := by
  refine ⟨?_, ?_, ?_⟩
  · intro s hs
    constructor
    · intro hr
      have hfind : (updateFirst (fun x : Stylist => x.id == stylist_id)
          (fun x : Stylist => { x with rating := 0, reviewCount := 0 })
          db.stylists).find? (fun x => x.id == stylist_id)
          = some { s with rating := 0, reviewCount := 0 } := by
        rw [updateFirst_find? (fun x : Stylist => x.id == stylist_id)
          (fun x : Stylist => { x with rating := 0, reviewCount := 0 })
          (fun x hx => hx)]
        rw [← get_stylist_def, hs]
        rfl
      simp only [ReviewService.update_stylist_rating, hr, List.isEmpty_nil,
        if_pos]
      exact hfind
    · intro hr
      have hfind : (updateFirst (fun x : Stylist => x.id == stylist_id)
          (fun x : Stylist =>
            { x with
              rating := roundTo 1
                (((stylistReviewRatings db stylist_id).map
                    (fun v => (v : ℚ))).sum /
                  ((stylistReviewRatings db stylist_id).length : ℚ))
              reviewCount := (stylistReviewRatings db stylist_id).length })
          db.stylists).find? (fun x => x.id == stylist_id)
          = some { s with
              rating := roundTo 1
                (((stylistReviewRatings db stylist_id).map
                    (fun v => (v : ℚ))).sum /
                  ((stylistReviewRatings db stylist_id).length : ℚ))
              reviewCount := (stylistReviewRatings db stylist_id).length } := by
        rw [updateFirst_find? (fun x : Stylist => x.id == stylist_id)
          (fun x : Stylist =>
            { x with
              rating := roundTo 1
                (((stylistReviewRatings db stylist_id).map
                    (fun v => (v : ℚ))).sum /
                  ((stylistReviewRatings db stylist_id).length : ℚ))
              reviewCount := (stylistReviewRatings db stylist_id).length })
          (fun x hx => hx)]
        rw [← get_stylist_def, hs]
        rfl
      simp only [ReviewService.update_stylist_rating]
      rw [if_neg (by simpa [List.isEmpty_iff] using hr)]
      exact hfind
  · intro s hs hr
    have hfind : (updateFirst (fun x : Stylist => x.id == stylist_id)
        (fun x : Stylist =>
          { x with
            rating := roundTo 1
              (((ratedBookingRatings db stylist_id).map
                  (fun v => (v : ℚ))).sum /
                ((ratedBookingRatings db stylist_id).length : ℚ))
            reviewCount := (ratedBookingRatings db stylist_id).length })
        db.stylists).find? (fun x => x.id == stylist_id)
        = some { s with
            rating := roundTo 1
              (((ratedBookingRatings db stylist_id).map
                  (fun v => (v : ℚ))).sum /
                ((ratedBookingRatings db stylist_id).length : ℚ))
            reviewCount := (ratedBookingRatings db stylist_id).length } := by
      rw [updateFirst_find? (fun x : Stylist => x.id == stylist_id)
        (fun x : Stylist =>
          { x with
            rating := roundTo 1
              (((ratedBookingRatings db stylist_id).map
                  (fun v => (v : ℚ))).sum /
                ((ratedBookingRatings db stylist_id).length : ℚ))
            reviewCount := (ratedBookingRatings db stylist_id).length })
        (fun x hx => hx)]
      rw [← get_stylist_def, hs]
      rfl
    simp only [BookingService.update_stylist_rating]
    rw [if_neg (by simpa [List.isEmpty_iff] using hr)]
    exact hfind
  · intro hr
    simp only [BookingService.update_stylist_rating, hr, List.isEmpty_nil,
      if_pos]

/-- Witness for C5: with reviews [5,4,3] the reviews-collection recompute
stores rating 4.0 and count 3; with the one rated booking [5] the
booking-based recompute stores rating 5.0 and count 1. -/
theorem C5_rating_recompute_witness :
    get_stylist (ReviewService.update_stylist_rating exDbReviews "sty1") "sty1"
      = some { id := "sty1", rating := 4, reviewCount := 3 } ∧
    get_stylist (BookingService.update_stylist_rating exDbReviews "sty1") "sty1"
      = some { id := "sty1", rating := 5, reviewCount := 1 } := by
  obtain ⟨h1, h2, -⟩ := C5_rating_recompute exDbReviews "sty1"
  have hrev : stylistReviewRatings exDbReviews "sty1" = [5, 4, 3] := rfl
  have hbkr : ratedBookingRatings exDbReviews "sty1" = [5] := rfl
  constructor
  · have h := (h1 { id := "sty1", rating := 0, reviewCount := 0 } rfl).2
      (by rw [hrev]; decide)
    rw [h, hrev]
    have hround : roundTo 1 ((([5, 4, 3] : List ℤ).map (fun v => (v : ℚ))).sum /
        ((([5, 4, 3] : List ℤ).length : ℕ) : ℚ)) = 4 := by
      rw [roundTo_eq 1 _ 40 (by push_cast; norm_num)]
      norm_num
    rw [hround]
    rfl
  · have h := h2 { id := "sty1", rating := 0, reviewCount := 0 } rfl
      (by rw [hbkr]; decide)
    rw [h, hbkr]
    have hround : roundTo 1 ((([5] : List ℤ).map (fun v => (v : ℚ))).sum /
        ((([5] : List ℤ).length : ℕ) : ℚ)) = 5 := by
      rw [roundTo_eq 1 _ 50 (by push_cast; norm_num)]
      norm_num
    rw [hround]
    rfl

/-- Counterexample to C5 as stated: with zero rated bookings the
booking-based recompute leaves the stylist record entirely unchanged —
the stored rating stays 4.5 instead of being reset to 0.0. -/
theorem C5_counterexample :
    ratedBookingRatings exDbStale "sty1" = [] ∧
    BookingService.update_stylist_rating exDbStale "sty1" = exDbStale ∧
    (get_stylist exDbStale "sty1").map Stylist.rating = some (9 / 2) ∧
    ((9 : ℚ) / 2 ≠ 0) := by
  refine ⟨rfl, rfl, rfl, by norm_num⟩

/-- Claim C6: refund_payment fails (returns None, store untouched) when
the payment is absent or its status is not completed; on success it sets
the payment's status to refunded, appends exactly one type=refund
transaction whose amount equals the full original payment amount, and
sets the linked booking's paymentStatus to refunded. -/
theorem C6_refund_spec (db : DB) (payment_id : Nat) (reason : Option String)
    (gw : Except String GatewayResult) (r : GatewayResult) :
    (get_payment_by_id db payment_id = none →
      refund_payment db payment_id reason gw = (db, none)) ∧
    (∀ pay, get_payment_by_id db payment_id = some pay →
      pay.status ≠ PaymentStatus.completed →
      refund_payment db payment_id reason gw = (db, none)) ∧
    (∀ pay bk, get_payment_by_id db payment_id = some pay →
      pay.status = PaymentStatus.completed →
      get_booking_by_id db pay.bookingId = some bk →
      (∃ pay2,
        get_payment_by_id (refund_payment db payment_id reason
            (Except.ok r)).1 payment_id = some pay2 ∧
        (refund_payment db payment_id reason (Except.ok r)).2 = some pay2 ∧
        pay2.status = PaymentStatus.refunded ∧ pay2.amount = pay.amount) ∧
      (∃ t, (refund_payment db payment_id reason (Except.ok r)).1.transactions
          = db.transactions ++ [t] ∧
        t.type = TransactionType.refund ∧ t.amount = pay.amount ∧
        t.paymentId = some payment_id ∧ t.bookingId = some pay.bookingId) ∧
      (∃ bk2, get_booking_by_id (refund_payment db payment_id reason
            (Except.ok r)).1 pay.bookingId = some bk2 ∧
        bk2.paymentStatus = PaymentStatus.refunded)) := by
  refine ⟨?_, ?_, ?_⟩
  · intro h
    simp [refund_payment, h]
  · intro pay hp hs
    simp only [refund_payment, hp]
    rw [if_pos hs]
  · intro pay bk hp hs hbk
    rw [refund_payment_ok db payment_id reason r pay hp hs]
    have hfindp : (updateFirst (fun q : Payment => q.id == payment_id)
        (fun q : Payment =>
          { q with
            status := PaymentStatus.refunded
            refundTransactionId := some r.id
            refundReason := reason }) db.payments).find?
        (fun q => q.id == payment_id)
        = some { pay with
            status := PaymentStatus.refunded
            refundTransactionId := some r.id
            refundReason := reason } := by
      rw [updateFirst_find? (fun q : Payment => q.id == payment_id)
        (fun q : Payment =>
          { q with
            status := PaymentStatus.refunded
            refundTransactionId := some r.id
            refundReason := reason })
        (fun x hx => hx)]
      rw [← get_payment_by_id_def, hp]
      rfl
    have hfindb : (updateFirst (fun b : Booking => b.id == pay.bookingId)
        (fun b : Booking => { b with paymentStatus := PaymentStatus.refunded })
        db.bookings).find? (fun b => b.id == pay.bookingId)
        = some { bk with paymentStatus := PaymentStatus.refunded } := by
      rw [updateFirst_find? (fun b : Booking => b.id == pay.bookingId)
        (fun b : Booking => { b with paymentStatus := PaymentStatus.refunded })
        (fun x hx => hx)]
      rw [← get_booking_by_id_def, hbk]
      rfl
    exact ⟨⟨_, hfindp, hfindp, rfl, rfl⟩,
      ⟨_, rfl, rfl, rfl, rfl, rfl⟩,
      ⟨_, hfindb, rfl⟩⟩

/-- Witness for C6 at a concrete completed payment of amount 100. -/
theorem C6_refund_spec_witness :
    (∃ pay2,
      get_payment_by_id (refund_payment exDbWithPayment 7 none
          (Except.ok { id := "ref1" })).1 7 = some pay2 ∧
      (refund_payment exDbWithPayment 7 none (Except.ok { id := "ref1" })).2
        = some pay2 ∧
      pay2.status = PaymentStatus.refunded ∧ pay2.amount = pC1.amount) ∧
    (∃ t, (refund_payment exDbWithPayment 7 none
          (Except.ok { id := "ref1" })).1.transactions
        = exDbWithPayment.transactions ++ [t] ∧
      t.type = TransactionType.refund ∧ t.amount = pC1.amount ∧
      t.paymentId = some 7 ∧ t.bookingId = some pC1.bookingId) ∧
    (∃ bk2, get_booking_by_id (refund_payment exDbWithPayment 7 none
          (Except.ok { id := "ref1" })).1 pC1.bookingId = some bk2 ∧
      bk2.paymentStatus = PaymentStatus.refunded) :=
  (C6_refund_spec exDbWithPayment 7 none (Except.ok { id := "ref1" })
    { id := "ref1" }).2.2 pC1 exBooking rfl rfl rfl

/-- Claim C7: when the gateway call raises, create_payment returns None,
persists one payment row with status failed carrying the error message,
writes no transaction rows, and leaves the bookings — in particular the
booking's paymentStatus — untouched. -/
theorem C7_gateway_failure (db : DB) (bookingId : Nat) (amount : ℚ)
    (currency client_id errMsg : String) (newPaymentId : Nat) (bk : Booking)
    (hb : get_booking_by_id db bookingId = some bk)
    (hc : bk.clientId = client_id) :
    (create_payment db bookingId amount currency client_id
        (Except.error errMsg) newPaymentId).2 = none ∧
    (create_payment db bookingId amount currency client_id
        (Except.error errMsg) newPaymentId).1.bookings = db.bookings ∧
    (create_payment db bookingId amount currency client_id
        (Except.error errMsg) newPaymentId).1.transactions = db.transactions ∧
    get_booking_by_id (create_payment db bookingId amount currency client_id
        (Except.error errMsg) newPaymentId).1 bookingId = some bk ∧
    ∃ fp, (create_payment db bookingId amount currency client_id
        (Except.error errMsg) newPaymentId).1.payments = db.payments ++ [fp] ∧
      fp.status = PaymentStatus.failed ∧ fp.errorMessage = some errMsg ∧
      fp.amount = amount ∧ fp.bookingId = bookingId := by
  rw [create_payment_err db bookingId amount currency client_id errMsg
    newPaymentId bk hb hc]
  exact ⟨rfl, rfl, rfl, hb, ⟨_, rfl, rfl, rfl, rfl, rfl⟩⟩

/-- Witness for C7: a concrete declined capture of amount 100. -/
theorem C7_gateway_failure_witness :
    (create_payment exDbConfirmed 1 100 "INR" "cli1"
        (Except.error "card declined") 7).2 = none ∧
    (create_payment exDbConfirmed 1 100 "INR" "cli1"
        (Except.error "card declined") 7).1.bookings = exDbConfirmed.bookings ∧
    (create_payment exDbConfirmed 1 100 "INR" "cli1"
        (Except.error "card declined") 7).1.transactions
      = exDbConfirmed.transactions ∧
    get_booking_by_id (create_payment exDbConfirmed 1 100 "INR" "cli1"
        (Except.error "card declined") 7).1 1 = some exBooking ∧
    ∃ fp, (create_payment exDbConfirmed 1 100 "INR" "cli1"
        (Except.error "card declined") 7).1.payments
        = exDbConfirmed.payments ++ [fp] ∧
      fp.status = PaymentStatus.failed ∧ fp.errorMessage = some "card declined" ∧
      fp.amount = 100 ∧ fp.bookingId = 1 :=
  C7_gateway_failure exDbConfirmed 1 100 "INR" "cli1" "card declined" 7
    exBooking rfl rfl

/-- Claim C8: update_payment_status sets the booking's paymentStatus to
the given value; when the new value is completed and the booking is
currently pending it additionally promotes the booking status to
confirmed, and in every other combination it leaves the status field
unchanged — nothing else on the booking changes. -/
theorem C8_update_payment_status (db : DB) (booking_id : Nat)
    (ps : PaymentStatus) :
    (get_booking_by_id db booking_id = none →
      update_payment_status db booking_id ps = (db, none)) ∧
    (∀ bk, get_booking_by_id db booking_id = some bk →
      (update_payment_status db booking_id ps).2
          = some { bk with
                   paymentStatus := ps
                   status := if ps = PaymentStatus.completed ∧
                       bk.status = BookingStatus.pending then
                     BookingStatus.confirmed else bk.status } ∧
      get_booking_by_id (update_payment_status db booking_id ps).1 booking_id
          = some { bk with
                   paymentStatus := ps
                   status := if ps = PaymentStatus.completed ∧
                       bk.status = BookingStatus.pending then
                     BookingStatus.confirmed else bk.status }) := by
  constructor
  · intro h
    simp [update_payment_status, h]
  · intro bk hb
    have hfind : (updateFirst (fun b : Booking => b.id == booking_id)
        (fun b : Booking =>
          { b with
            paymentStatus := ps
            status := if ps = PaymentStatus.completed ∧
                bk.status = BookingStatus.pending then
              BookingStatus.confirmed else b.status })
        db.bookings).find? (fun b => b.id == booking_id)
        = some { bk with
            paymentStatus := ps
            status := if ps = PaymentStatus.completed ∧
                bk.status = BookingStatus.pending then
              BookingStatus.confirmed else bk.status } := by
      rw [updateFirst_find? (fun b : Booking => b.id == booking_id)
        (fun b : Booking =>
          { b with
            paymentStatus := ps
            status := if ps = PaymentStatus.completed ∧
                bk.status = BookingStatus.pending then
              BookingStatus.confirmed else b.status })
        (fun x hx => hx)]
      rw [← get_booking_by_id_def, hb]
      rfl
    simp only [update_payment_status, hb]
    exact ⟨hfind, hfind⟩

/-- Witness for C8: completing payment on a pending booking promotes it
to confirmed. -/
theorem C8_update_payment_status_witness :
    (update_payment_status exDbPending 1 PaymentStatus.completed).2
      = some { exBkPending with
               paymentStatus := PaymentStatus.completed
               status := BookingStatus.confirmed } ∧
    get_booking_by_id
        (update_payment_status exDbPending 1 PaymentStatus.completed).1 1
      = some { exBkPending with
               paymentStatus := PaymentStatus.completed
               status := BookingStatus.confirmed } := by
  have h := (C8_update_payment_status exDbPending 1 PaymentStatus.completed).2
    exBkPending rfl
  exact ⟨by rw [h.1]; decide, by rw [h.2]; decide⟩

/-- Claim C9: reschedule_booking fails and changes nothing when the
booking is completed, cancelled or noShow; otherwise it overwrites date,
startTime and endTime, sets status rescheduled, persists a supplied
(non-empty) reason, and leaves otpCode, meetingLink, price and duration
unchanged. -/
theorem C9_reschedule_booking (db : DB) (booking_id : Nat) (date : Nat)
    (start_time end_time : String) (reason : Option String) :
    ∀ bk, get_booking_by_id db booking_id = some bk →
      ((bk.status = BookingStatus.completed ∨
          bk.status = BookingStatus.cancelled ∨
          bk.status = BookingStatus.noShow) →
        reschedule_booking db booking_id date start_time end_time reason
          = (db, none)) ∧
      (¬ (bk.status = BookingStatus.completed ∨
          bk.status = BookingStatus.cancelled ∨
          bk.status = BookingStatus.noShow) →
        (reschedule_booking db booking_id date start_time end_time reason).2
            = some { bk with
                date := date, startTime := start_time, endTime := end_time
                status := BookingStatus.rescheduled
                rescheduleReason :=
                  if strTruthy reason then reason else bk.rescheduleReason } ∧
        get_booking_by_id (reschedule_booking db booking_id date start_time
            end_time reason).1 booking_id
            = some { bk with
                date := date, startTime := start_time, endTime := end_time
                status := BookingStatus.rescheduled
                rescheduleReason :=
                  if strTruthy reason then reason else bk.rescheduleReason } ∧
        (∀ rr, reason = some rr → rr ≠ "" →
          (if strTruthy reason then reason else bk.rescheduleReason)
            = some rr) ∧
        (reason = none →
          (if strTruthy reason then reason else bk.rescheduleReason)
            = bk.rescheduleReason)) := by
  intro bk hb
  constructor
  · intro hterm
    simp only [reschedule_booking, hb]
    rw [if_pos hterm]
  · intro hok
    have hfind : (updateFirst (fun b : Booking => b.id == booking_id)
        (fun b : Booking =>
          { b with
            date := date, startTime := start_time, endTime := end_time
            status := BookingStatus.rescheduled
            rescheduleReason :=
              if strTruthy reason then reason else b.rescheduleReason })
        db.bookings).find? (fun b => b.id == booking_id)
        = some { bk with
            date := date, startTime := start_time, endTime := end_time
            status := BookingStatus.rescheduled
            rescheduleReason :=
              if strTruthy reason then reason else bk.rescheduleReason } := by
      rw [updateFirst_find? (fun b : Booking => b.id == booking_id)
        (fun b : Booking =>
          { b with
            date := date, startTime := start_time, endTime := end_time
            status := BookingStatus.rescheduled
            rescheduleReason :=
              if strTruthy reason then reason else b.rescheduleReason })
        (fun x hx => hx)]
      rw [← get_booking_by_id_def, hb]
      rfl
    refine ⟨?_, ?_, ?_, ?_⟩
    · simp only [reschedule_booking, hb]
      rw [if_neg hok]
      exact hfind
    · simp only [reschedule_booking, hb]
      rw [if_neg hok]
      exact hfind
    · intro rr hrr hne
      subst hrr
      simp [strTruthy, hne]
    · intro hrr
      subst hrr
      simp [strTruthy]

/-- Witness for C9: rescheduling the confirmed booking moves the schedule
fields, sets status rescheduled, stores the reason, and keeps OTP,
meeting link, price and duration. -/
theorem C9_reschedule_booking_witness :
    (reschedule_booking exDbConfirmed 1 20260215 "12:00" "13:00"
        (some "client request")).2
      = some { exBooking with
          date := 20260215, startTime := "12:00", endTime := "13:00"
          status := BookingStatus.rescheduled
          rescheduleReason := some "client request" } ∧
    get_booking_by_id (reschedule_booking exDbConfirmed 1 20260215 "12:00"
        "13:00" (some "client request")).1 1
      = some { exBooking with
          date := 20260215, startTime := "12:00", endTime := "13:00"
          status := BookingStatus.rescheduled
          rescheduleReason := some "client request" } := by
  have h := (C9_reschedule_booking exDbConfirmed 1 20260215 "12:00" "13:00"
    (some "client request") exBooking rfl).2 (by decide)
  exact ⟨by rw [h.1]; decide, by rw [h.2.1]; decide⟩

/-- Claim C10: both payment-method operations preserve the invariant that
a user has at most one default payment method: add_payment_method clears
the user's default flags before inserting a default method, and
set_default_payment_method clears them before setting exactly one. -/
theorem C10_single_default_invariant (db : DB) (u user_id : String)
    (isDefault : Bool) (newMethodId method_id : Nat) (user_id2 : String)
    (h : defaultCount db u ≤ 1) :
    defaultCount (add_payment_method db user_id isDefault newMethodId).1 u ≤ 1 ∧
    defaultCount (set_default_payment_method db method_id user_id2).1 u ≤ 1 := by
  rw [defaultCount_eq] at h
  constructor
  · rw [defaultCount_eq]
    show countDefaults u
      ((if isDefault then clearUserDefaults user_id db.payment_methods
        else db.payment_methods) ++
        [{ id := newMethodId, userId := user_id, isDefault := isDefault }]) ≤ 1
    rw [countDefaults_append]
    by_cases hD : isDefault
    · rw [if_pos hD]
      by_cases hu : u = user_id
      · subst hu
        rw [countDefaults_clear_self]
        split
        · omega
        · omega
      · rw [countDefaults_clear_other hu]
        have hfalse : (user_id == u) = false := by simp [Ne.symm hu]
        simpa [hfalse] using h
    · rw [if_neg hD]
      have hDf : isDefault = false := by simpa using hD
      simpa [hDf] using h
  · rw [defaultCount_eq]
    show countDefaults u (updateFirst
      (fun m => m.id == method_id && m.userId == user_id2)
      (fun m => { m with isDefault := true })
      (clearUserDefaults user_id2 db.payment_methods)) ≤ 1
    by_cases hu : u = user_id2
    · subst hu
      have hle := countDefaults_updateFirst_le u
        (fun m => m.id == method_id && m.userId == u)
        (fun m => { m with isDefault := true })
        (clearUserDefaults u db.payment_methods)
      rw [countDefaults_clear_self] at hle
      omega
    · rw [countDefaults_updateFirst_other u _ _ ?hpf]
      · rw [countDefaults_clear_other hu]
        exact h
      case hpf =>
        intro x hx
        have hxu : x.userId = user_id2 := by
          have := (Bool.and_eq_true _ _).mp hx
          simpa using this.2
        constructor
        · simp [hxu, Ne.symm hu]
        · simp [hxu, Ne.symm hu]

/-- Witness for C10 on a store already holding one default method. -/
theorem C10_single_default_invariant_witness :
    defaultCount (add_payment_method exDbMethods "u1" true 3).1 "u1" ≤ 1 ∧
    defaultCount (set_default_payment_method exDbMethods 2 "u1").1 "u1" ≤ 1 :=
  C10_single_default_invariant exDbMethods "u1" "u1" true 3 2 "u1" (by decide)

/-- Witness for C2 at a concrete capture of amount 100 with an empty
prior ledger. -/
theorem C2_capture_transactions_witness :
    ∃ t1 t2 : Transaction,
      (create_payment exDbConfirmed 1 100 "INR" "cli1"
          (Except.ok { id := "txn1" }) 7).1.transactions
        = exDbConfirmed.transactions ++ [t1, t2] ∧
      t1.type = TransactionType.payment ∧ t1.userId = "cli1" ∧
      t1.paymentId = some 7 ∧ t1.amount = 100 ∧
      t2.type = TransactionType.fee ∧ t2.userId = "platform" ∧
      t2.paymentId = some 7 ∧
      t2.amount = roundTo 2 (100 * (PLATFORM_FEE_PERCENTAGE / 100)) ∧
      ((create_payment exDbConfirmed 1 100 "INR" "cli1"
          (Except.ok { id := "txn1" }) 7).1.transactions.filter
        (fun t => t.paymentId == some 7)) = [t1, t2] := by
  obtain ⟨t1, t2, h1, h2, h3, h4, h5, h6, h7, h8, h9, -, hf⟩ :=
    C2_capture_transactions exDbConfirmed 1 100 "INR" "cli1" { id := "txn1" } 7
      exBooking rfl rfl
  exact ⟨t1, t2, h1, h2, h3, h4, h5, h6, h7, h8, h9, hf (by decide)⟩

/-- Witness for C3: the confirmed booking with the matching OTP starts,
its status becoming inProgress. -/
theorem C3_start_session_iff_witness :
    (start_session exDbConfirmed 1 "1234").2
      = some { exBooking with status := BookingStatus.inProgress } ∧
    get_booking_by_id (start_session exDbConfirmed 1 "1234").1 1
      = some { exBooking with status := BookingStatus.inProgress } :=
  ((C3_start_session_iff exDbConfirmed 1 "1234").2 exBooking rfl).1 rfl rfl
